import Mathlib

/-!
Verification development for the sheets query/update service.

The definitions below are a shallow embedding of `src/sheets/filters.py`,
`src/sheets/services.py`, `src/sheets/utils.py` and the response glue in
`src/sheets/views.py`.  Python scalars (as they arrive from JSON request
bodies and from the spreadsheet API) are modelled by the inductive `PyVal`;
Python `datetime` objects by `DT`; Python floats produced by coercion are
modelled as rationals.  Fallible Python code (raising exceptions) is
modelled with `Option`/`Except`.  Remote write traffic is modelled as an
explicit trace of `WriteCall` values returned by the upsert engine.
-/

namespace Sheets

/-- Model of a Python `datetime.datetime` value (microseconds unused: the
parsers in `filters.py` never produce them). -/
structure DT where
  year : Nat
  month : Nat
  day : Nat
  hour : Nat
  minute : Nat
  second : Nat
  deriving DecidableEq, Repr

/-- Monotone encoding of a (range-valid) `DT` used for ordering, mirroring
Python's field-lexicographic `datetime` comparison. -/
def DT.key (d : DT) : Nat :=
  ((((d.year * 13 + d.month) * 32 + d.day) * 24 + d.hour) * 60 + d.minute) * 60 + d.second

/-- Model of the Python values flowing through the filter/upsert engine:
JSON scalars, `datetime` objects, JSON arrays and JSON objects (dicts with
string keys, as produced by `json.loads`). -/
inductive PyVal where
  | pstr (s : String)
  | pint (n : Int)
  | pbool (b : Bool)
  | pnone
  | pdt (d : DT)
  | plist (xs : List PyVal)
  | pdict (fields : List (String × PyVal))

open PyVal

/-- Python dict lookup on a key/value list: later bindings win, as in a dict
built from an ordered sequence of assignments (`json.loads` keeps the last
duplicate key). -/
def dget (fields : List (String × PyVal)) (k : String) : Option PyVal :=
  fields.foldl (fun acc kv => if kv.1 = k then some kv.2 else acc) none

/-- Zero-padded two-digit rendering of a numeral, for `str(datetime)`. -/
def pad2 (n : Nat) : String :=
  if n < 10 then "0" ++ toString n else toString n

/-- Zero-padded four-digit rendering of a year, for `str(datetime)`. -/
def pad4 (n : Nat) : String :=
  if n < 10 then "000" ++ toString n
  else if n < 100 then "00" ++ toString n
  else if n < 1000 then "0" ++ toString n
  else toString n

/-- Python `str()` of a datetime: `YYYY-MM-DD HH:MM:SS` (zero microseconds
are omitted by Python, and the model never produces microseconds). -/
def DT.str (d : DT) : String :=
  pad4 d.year ++ "-" ++ pad2 d.month ++ "-" ++ pad2 d.day ++ " " ++
    pad2 d.hour ++ ":" ++ pad2 d.minute ++ ":" ++ pad2 d.second

/-- The ASCII single-quote character, used by Python `repr` of strings. -/
def quoteChar : String := String.singleton (Char.ofNat 39)

/-- The ASCII opening curly bracket, used by Python `repr` of dicts. -/
def lcurly : String := String.singleton (Char.ofNat 123)

/-- The ASCII closing curly bracket, used by Python `repr` of dicts. -/
def rcurly : String := String.singleton (Char.ofNat 125)

mutual

/-- Python `repr()` of a value (string escaping inside quotes is not
modelled; containers and `repr` strings never feed the claims below, they
exist only to make `str()` total). -/
def pyRepr : PyVal → String
  | pstr s => quoteChar ++ s ++ quoteChar
  | pint n => toString n
  | pbool b => if b then "True" else "False"
  | pnone => "None"
  | pdt d => "datetime.datetime(" ++ toString d.year ++ ", " ++ toString d.month ++ ", " ++
      toString d.day ++ ", " ++ toString d.hour ++ ", " ++ toString d.minute ++ ", " ++
      toString d.second ++ ")"
  | plist xs => "[" ++ pyReprList xs ++ "]"
  | pdict fs => lcurly ++ pyReprFields fs ++ rcurly

/-- Comma-separated `repr` of list elements. -/
def pyReprList : List PyVal → String
  | [] => ""
  | [x] => pyRepr x
  | x :: xs => pyRepr x ++ ", " ++ pyReprList xs

/-- Comma-separated `repr` of dict entries. -/
def pyReprFields : List (String × PyVal) → String
  | [] => ""
  | [(k, v)] => quoteChar ++ k ++ quoteChar ++ ": " ++ pyRepr v
  | (k, v) :: fs => quoteChar ++ k ++ quoteChar ++ ": " ++ pyRepr v ++ ", " ++ pyReprFields fs

end

/-- Python `str()` of a value. -/
def pyStr : PyVal → String
  | pstr s => s
  | pdt d => d.str
  | v => pyRepr v

/-- Python truthiness (`bool(v)`), as used by `where.get("and") or []`. -/
def pyTruthy : PyVal → Bool
  | pstr s => s ≠ ""
  | pint n => n ≠ 0
  | pbool b => b
  | pnone => false
  | pdt _ => true
  | plist xs => !xs.isEmpty
  | pdict fs => !fs.isEmpty

/-- Model of `_is_nullish` from `filters.py`: `value is None or value == ""`. -/
def isNullish : PyVal → Bool
  | pnone => true
  | pstr s => s = ""
  | _ => false

/-- Python `str.lower()` (ASCII case folding, which covers every token and
operator name the sources compare). -/
def strLower (s : String) : String :=
  String.mk (s.data.map Char.toLower)

/-- Python `str.strip()`: remove leading and trailing whitespace. -/
def pyStrip (s : String) : String :=
  String.mk (((s.data.dropWhile Char.isWhitespace).reverse.dropWhile
    Char.isWhitespace).reverse)

/-- Lexicographic code-point comparison of character lists — Python's `<`
on strings. -/
def charListLt : List Char → List Char → Bool
  | [], [] => false
  | [], _ :: _ => true
  | _ :: _, [] => false
  | a :: as, b :: bs =>
    if a.toNat < b.toNat then true
    else if b.toNat < a.toNat then false
    else charListLt as bs

/-- Model of `_to_bool` from `filters.py`.  Python `bool` is checked before the
`(int, float)` branch; strings are stripped, lowercased and matched against
the fixed token sets. -/
def toBool : PyVal → Option Bool
  | pbool b => some b
  | pint n => some (decide (n ≠ 0))
  | pstr s =>
      let t := strLower (pyStrip s)
      if t = "true" ∨ t = "t" ∨ t = "yes" ∨ t = "y" ∨ t = "1" then some true
      else if t = "false" ∨ t = "f" ∨ t = "no" ∨ t = "n" ∨ t = "0" then some false
      else none
  | _ => none

/-- Digits-to-numeral accumulator. -/
def digitsToNat (cs : List Char) : Nat :=
  cs.foldl (fun a c => a * 10 + (c.toNat - 48)) 0

/-- Parse a non-empty all-digit character run whose length lies in
`[lo, hi]` (models the digit-count flexibility of `strptime` fields). -/
def digitsLen (cs : List Char) (lo hi : Nat) : Option Nat :=
  if cs ≠ [] ∧ cs.all Char.isDigit ∧ lo ≤ cs.length ∧ cs.length ≤ hi then
    some (digitsToNat cs)
  else none

/-- Model of Python `float(s)` on finite decimal literals:
optional sign, decimal digits with an optional point, optional decimal
exponent.  (`inf`/`nan`/underscored literals are not modelled; they never
occur in the behaviors claimed below.) -/
def parseFloatStr (s : String) : Option Rat :=
  let cs := s.toList
  let (sgn, cs) : Int × List Char :=
    match cs with
    | '+' :: t => (1, t)
    | '-' :: t => (-1, t)
    | t => (1, t)
  let (mant, expPart) : List Char × Option (List Char) :=
    match cs.span (fun c => c ≠ 'e' ∧ c ≠ 'E') with
    | (m, []) => (m, none)
    | (m, _ :: e) => (m, some e)
  let mantVal : Option Rat :=
    let (ip, rest) := mant.span Char.isDigit
    match rest with
    | [] => if ip = [] then none else some ((digitsToNat ip : Int) : Rat)
    | '.' :: fr =>
        if fr.all Char.isDigit ∧ (ip ≠ [] ∨ fr ≠ []) then
          some (mkRat (digitsToNat (ip ++ fr) : Int) (10 ^ fr.length))
        else none
    | _ => none
  let expVal : Option Int :=
    match expPart with
    | none => some 0
    | some e =>
        match e with
        | '+' :: d => (digitsLen d 1 1000).map (fun n => (n : Int))
        | '-' :: d => (digitsLen d 1 1000).map (fun n => -(n : Int))
        | d => (digitsLen d 1 1000).map (fun n => (n : Int))
  match mantVal, expVal with
  | some m, some e =>
      let scaled :=
        if 0 ≤ e then m * ((10 : Rat) ^ e.toNat)
        else m * mkRat 1 ((10 : Nat) ^ (-e).toNat)
      some ((sgn : Rat) * scaled)
  | _, _ => none

/-- Model of `_to_number` from `filters.py`: native numbers pass through (Python
`bool` is an `int`, so booleans coerce via `float(True) = 1.0`); strings are
stripped and parsed as floats. -/
def toNumber : PyVal → Option Rat
  | pint n => some (n : Rat)
  | pbool b => some (if b then 1 else 0)
  | pstr s => parseFloatStr (pyStrip s)
  | _ => none

/-- Number of days in a month, with the Gregorian leap rule (as validated by
Python's `datetime` constructor via `strptime`/`fromisoformat`). -/
def daysInMonth (y m : Nat) : Nat :=
  if m = 1 ∨ m = 3 ∨ m = 5 ∨ m = 7 ∨ m = 8 ∨ m = 10 ∨ m = 12 then 31
  else if m = 4 ∨ m = 6 ∨ m = 9 ∨ m = 11 then 30
  else if y % 4 = 0 ∧ (y % 100 ≠ 0 ∨ y % 400 = 0) then 29
  else 28

/-- Construct a `DT` after range validation (Python `datetime` bounds). -/
def mkDT (y m d hh mi ss : Nat) : Option DT :=
  if 1 ≤ y ∧ y ≤ 9999 ∧ 1 ≤ m ∧ m ≤ 12 ∧ 1 ≤ d ∧ d ≤ daysInMonth y m ∧
      hh ≤ 23 ∧ mi ≤ 59 ∧ ss ≤ 59 then
    some ⟨y, m, d, hh, mi, ss⟩
  else none

/-- Parse an `HH:MM[:SS]` time with strict two-digit fields (the shape
accepted by `datetime.fromisoformat` in Python 3.10, without fractions). -/
def parseIsoTime (cs : List Char) : Option (Nat × Nat × Nat) :=
  match cs with
  | [h1, h2, ':', m1, m2] =>
      match digitsLen [h1, h2] 2 2, digitsLen [m1, m2] 2 2 with
      | some hh, some mi => some (hh, mi, 0)
      | _, _ => none
  | [h1, h2, ':', m1, m2, ':', s1, s2] =>
      match digitsLen [h1, h2] 2 2, digitsLen [m1, m2] 2 2, digitsLen [s1, s2] 2 2 with
      | some hh, some mi, some ss => some (hh, mi, ss)
      | _, _, _ => none
  | _ => none

/-- Model of `datetime.fromisoformat` (Python 3.10 shape): a strict
`YYYY-MM-DD` date, optionally followed by a single separator character and
an `HH:MM[:SS]` time. -/
def parseIso (s : String) : Option DT :=
  match s.toList with
  | y1 :: y2 :: y3 :: y4 :: '-' :: m1 :: m2 :: '-' :: d1 :: d2 :: rest =>
      match digitsLen [y1, y2, y3, y4] 4 4, digitsLen [m1, m2] 2 2, digitsLen [d1, d2] 2 2 with
      | some y, some m, some d =>
          match rest with
          | [] => mkDT y m d 0 0 0
          | _ :: t =>
              match parseIsoTime t with
              | some (hh, mi, ss) => mkDT y m d hh mi ss
              | none => none
      | _, _, _ => none
  | _ => none

/-- Split a character list on a separator character (like `str.split(sep)`
for a single-character separator). -/
def splitOnChar (sep : Char) : List Char → List (List Char)
  | [] => [[]]
  | c :: cs =>
    if c = sep then [] :: splitOnChar sep cs
    else
      match splitOnChar sep cs with
      | [] => [[c]]
      | p :: ps => (c :: p) :: ps

/-- Parse a `strptime`-style date from three separated digit fields,
given per-field digit-count bounds and the field order. -/
def parseYMDparts (p1 p2 p3 : List Char) (order : Nat) : Option DT :=
  match order with
  | 0 => -- %Y %m %d
      match digitsLen p1 1 4, digitsLen p2 1 2, digitsLen p3 1 2 with
      | some y, some m, some d => mkDT y m d 0 0 0
      | _, _, _ => none
  | 1 => -- %m %d %Y
      match digitsLen p1 1 2, digitsLen p2 1 2, digitsLen p3 1 4 with
      | some m, some d, some y => mkDT y m d 0 0 0
      | _, _, _ => none
  | _ => -- %d %m %Y
      match digitsLen p1 1 2, digitsLen p2 1 2, digitsLen p3 1 4 with
      | some d, some m, some y => mkDT y m d 0 0 0
      | _, _, _ => none

/-- Parse an `H:M:S` time with `strptime`-style 1-2 digit fields. -/
def parseColonTime (cs : List Char) : Option (Nat × Nat × Nat) :=
  match splitOnChar ':' cs with
  | [h, m, s] =>
      match digitsLen h 1 2, digitsLen m 1 2, digitsLen s 1 2 with
      | some hh, some mi, some ss => some (hh, mi, ss)
      | _, _, _ => none
  | _ => none

/-- Parse `%Y-%m-%d` followed by a required separator and `%H:%M:%S`. -/
def parseDashDateTime (sep : Char) (cs : List Char) : Option DT :=
  match splitOnChar sep cs with
  | [datePart, timePart] =>
      match splitOnChar '-' datePart with
      | [p1, p2, p3] =>
          match parseYMDparts p1 p2 p3 0 with
          | some d =>
              match parseColonTime timePart with
              | some (hh, mi, ss) => mkDT d.year d.month d.day hh mi ss
              | none => none
          | none => none
      | _ => none
  | _ => none

/-- Model of `_to_datetime` on a stripped string: `fromisoformat` first,
then the `_DATE_FORMATS` patterns in their source order. -/
def toDatetimeStr (s : String) : Option DT :=
  let cs := s.toList
  (parseIso s).orElse fun _ =>
  (match splitOnChar '-' cs with
   | [p1, p2, p3] => parseYMDparts p1 p2 p3 0
   | _ => none).orElse fun _ =>
  (match splitOnChar '/' cs with
   | [p1, p2, p3] =>
       (parseYMDparts p1 p2 p3 0).orElse fun _ =>
       (parseYMDparts p1 p2 p3 1).orElse fun _ =>
       parseYMDparts p1 p2 p3 2
   | _ => none).orElse fun _ =>
  (parseDashDateTime 'T' cs).orElse fun _ =>
  parseDashDateTime ' ' cs

/-- Model of `_to_datetime` from `filters.py`: existing datetimes pass through,
numbers (including Python booleans, which are ints) are explicitly
rejected, strings are stripped and parsed. -/
def toDatetime : PyVal → Option DT
  | pdt d => some d
  | pint _ => none
  | pbool _ => none
  | pstr s => toDatetimeStr (pyStrip s)
  | _ => none

/-- The coercion-kind type tag returned by `_coerce_pair`. -/
inductive Kind where
  | knull
  | kdatetime
  | knumber
  | kbool
  | kstring
  deriving DecidableEq, Repr

/-- One side of a coerced comparison pair. -/
inductive Coerced where
  | cnull
  | cdt (d : DT)
  | cnum (q : Rat)
  | cbool (b : Bool)
  | cstr (s : String)
  deriving DecidableEq, Repr

open Coerced Kind

/-- The string fallback of `_coerce_pair`: `"" if v is None else str(v)`. -/
def strOrEmpty (v : PyVal) : String :=
  match v with
  | pnone => ""
  | _ => pyStr v

/-- Model of `_coerce_pair` from `filters.py`: null check, then datetime, then
number, then bool, then the string fallback. -/
def coerce_pair (lhs rhs : PyVal) : Coerced × Coerced × Kind :=
  if isNullish lhs && isNullish rhs then (cnull, cnull, knull)
  else
    match toDatetime lhs, toDatetime rhs with
    | some a, some b => (cdt a, cdt b, kdatetime)
    | _, _ =>
      match toNumber lhs, toNumber rhs with
      | some a, some b => (cnum a, cnum b, knumber)
      | _, _ =>
        match toBool lhs, toBool rhs with
        | some a, some b => (cbool a, cbool b, kbool)
        | _, _ => (cstr (strOrEmpty lhs), cstr (strOrEmpty rhs), kstring)

/-- Python `==` on a coerced pair (the pair always shares one kind; `None ==
None` is `True`, so the null kind compares equal). -/
def cEq : Coerced → Coerced → Bool
  | cnull, cnull => true
  | cdt a, cdt b => a = b
  | cnum a, cnum b => a = b
  | cbool a, cbool b => a = b
  | cstr a, cstr b => a = b
  | _, _ => false

/-- Python `>=` on a coerced pair: defined for datetimes, numbers, strings
and booleans (booleans are ints); comparing `None` raises `TypeError`,
modelled as `none`. -/
def cGe : Coerced → Coerced → Option Bool
  | cdt a, cdt b => some (decide (b.key ≤ a.key))
  | cnum a, cnum b => some (decide (b ≤ a))
  | cbool a, cbool b => some (decide ((if b then 1 else 0) ≤ (if a then (1 : Nat) else 0)))
  | cstr a, cstr b => some (!charListLt a.data b.data)
  | _, _ => none

/-- Python `<=` on a coerced pair; same domain as `cGe`. -/
def cLe : Coerced → Coerced → Option Bool
  | cdt a, cdt b => some (decide (a.key ≤ b.key))
  | cnum a, cnum b => some (decide (a ≤ b))
  | cbool a, cbool b => some (decide ((if a then 1 else 0) ≤ (if b then (1 : Nat) else 0)))
  | cstr a, cstr b => some (!charListLt b.data a.data)
  | _, _ => none

/-- Python `>` on a coerced pair; same domain as `cGe`. -/
def cGt : Coerced → Coerced → Option Bool
  | cdt a, cdt b => some (decide (b.key < a.key))
  | cnum a, cnum b => some (decide (b < a))
  | cbool a, cbool b => some (decide ((if b then 1 else 0) < (if a then (1 : Nat) else 0)))
  | cstr a, cstr b => some (charListLt b.data a.data)
  | _, _ => none

/-- Python `<` on a coerced pair; same domain as `cGe`. -/
def cLt : Coerced → Coerced → Option Bool
  | cdt a, cdt b => some (decide (a.key < b.key))
  | cnum a, cnum b => some (decide (a < b))
  | cbool a, cbool b => some (decide ((if a then 1 else 0) < (if b then (1 : Nat) else 0)))
  | cstr a, cstr b => some (charListLt a.data b.data)
  | _, _ => none

/-- Model of `_cmp` from `filters.py`: coerce, handle `eq`/`ne` for every kind, and
allow ordering operators only when the kind is number, datetime or string
(the kind guard makes the orderings total there, so the `Option` default is
never consulted). -/
def pyCmp (lhs rhs : PyVal) (op : String) : Bool :=
  let t := coerce_pair lhs rhs
  let a := t.1
  let b := t.2.1
  let kind := t.2.2
  if op = "eq" then cEq a b
  else if op = "ne" then !cEq a b
  else if kind = knumber ∨ kind = kdatetime ∨ kind = kstring then
    if op = "gt" then (cGt a b).getD false
    else if op = "gte" then (cGe a b).getD false
    else if op = "lt" then (cLt a b).getD false
    else if op = "lte" then (cLe a b).getD false
    else false
  else false

/-- Character-list substring test (Python `needle in hay` on strings). -/
def containsSub (hay needle : List Char) : Bool :=
  match hay with
  | [] => needle.isEmpty
  | _ :: t => needle.isPrefixOf hay || containsSub t needle

/-- Model of `_like` from `filters.py`: false on nullish sides, else a
case-insensitive substring test of the pattern in the cell. -/
def pyLike (cell pattern : PyVal) : Bool :=
  if isNullish cell || isNullish pattern then false
  else containsSub (strLower (pyStr cell)).data (strLower (pyStr pattern)).data

/-- Model of `_between` from `filters.py`: coerce `(cell, low)` and `(cell, high)`
independently, false on kind disagreement, else the inclusive bound check
with Python `and` short-circuit (comparing a null coercion raises
`TypeError`, modelled as `none`). -/
def pyBetween (cell low high : PyVal) : Option Bool :=
  let tl := coerce_pair cell low
  let th := coerce_pair cell high
  if tl.2.2 ≠ th.2.2 then some false
  else
    match cGe tl.1 tl.2.1 with
    | none => none
    | some false => some false
    | some true => cLe th.1 th.2.1

/-- Model of `_in_list` from `filters.py`. -/
def inList (cell : PyVal) (options : List PyVal) : Bool :=
  options.any (fun opt => pyCmp cell opt "eq")

/-- Model of `_not_in_list` from `filters.py`. -/
def notInList (cell : PyVal) (options : List PyVal) : Bool :=
  options.all (fun opt => !pyCmp cell opt "eq")

/-- A row record: a header-keyed mapping built by `normalize_rows`
(`dict(zip(headers, padded))`, so string keys). -/
def Row := List (String × PyVal)

/-- The option-list extraction for `in`/`not_in`: a `values` list wins, else
a `value` list, else the single `value` wrapped. -/
def optsOf (value values : PyVal) : List PyVal :=
  match values with
  | plist xs => xs
  | _ =>
    match value with
    | plist xs => xs
    | _ => [value]

/-- Model of `match_one` from `build_predicate`: evaluate one condition object
against a row.  `none` models a propagated Python exception (only
`between` can raise, via a null-kind ordering). -/
def matchOne (row : Row) (cond : List (String × PyVal)) : Option Bool :=
  let field := dget cond "field"
  let operator := strLower (pyStr ((dget cond "operator").getD (pstr "eq")))
  let value := (dget cond "value").getD pnone
  let values := (dget cond "values").getD pnone
  let cell : PyVal :=
    match field with
    | some (pstr s) => (dget row s).getD pnone
    | _ => pnone
  if operator = "is_null" then some (isNullish cell)
  else if operator = "is_not_null" then some (!isNullish cell)
  else if operator = "like" then some (pyLike cell value)
  else if operator = "between" then
    match
      (match values with
       | plist (a :: b :: _) => some (a, b)
       | _ =>
         match value with
         | plist (a :: b :: _) => some (a, b)
         | _ => none) with
    | some (a, b) => pyBetween cell a b
    | none => some false
  else if operator = "in" then some (inList cell (optsOf value values))
  else if operator = "not_in" then some (notInList cell (optsOf value values))
  else if operator = "eq" ∨ operator = "ne" ∨ operator = "gt" ∨ operator = "gte" ∨
      operator = "lt" ∨ operator = "lte" then
    some (pyCmp cell value operator)
  else some false

/-- Is the value a Python dict? -/
def isPdict : PyVal → Bool
  | pdict _ => true
  | _ => false

/-- The AND loop of `build_predicate.predicate`: a non-dict entry (or a
failing condition) makes the conjunction false and stops the loop; a raised
exception propagates. -/
def andOkLoop (row : Row) : List PyVal → Option Bool
  | [] => some true
  | c :: rest =>
    match c with
    | pdict fs =>
      match matchOne row fs with
      | none => none
      | some true => andOkLoop row rest
      | some false => some false
    | _ => some false

/-- The OR loop of `build_predicate.predicate`: non-dict entries are
skipped; the first matching dict condition makes the disjunction true. -/
def orOkLoop (row : Row) : List PyVal → Option Bool
  | [] => some false
  | c :: rest =>
    match c with
    | pdict fs =>
      match matchOne row fs with
      | none => none
      | some true => some true
      | some false => orOkLoop row rest
    | _ => orOkLoop row rest

/-- The body of `build_predicate.predicate`: the AND block runs first, then
the OR block, then the combination policy (union when both lists are
non-empty). -/
def runPredicate (andConds orConds : List PyVal) (row : Row) : Option Bool :=
  match (if andConds.isEmpty then some true else andOkLoop row andConds) with
  | none => none
  | some aok =>
    match (if orConds.isEmpty then some true else orOkLoop row orConds) with
    | none => none
    | some ook =>
      some (if !andConds.isEmpty && !orConds.isEmpty then aok || ook
            else if !andConds.isEmpty then aok
            else if !orConds.isEmpty then ook
            else true)

/-- The condition-list extraction of `build_predicate`:
`where.get(key) or []`, then wrapping a bare non-list value. -/
def getConds (fs : List (String × PyVal)) (key : String) : List PyVal :=
  let v := (dget fs key).getD pnone
  if !pyTruthy v then []
  else
    match v with
    | plist xs => xs
    | x => [x]

/-- Model of `build_predicate` from `filters.py`: accept either a full payload with a
`where` key or a bare where clause; a non-dict where clause compiles to the
always-true predicate. -/
def build_predicate (payload : PyVal) : Row → Option Bool :=
  let w : PyVal :=
    match payload with
    | pdict fs =>
      match dget fs "where" with
      | some v => v
      | none => pdict fs
    | _ => payload
  match w with
  | pdict fs =>
    let ac := getConds fs "and"
    let oc := getConds fs "or"
    fun row => runPredicate ac oc row
  | _ => fun _ => some true

/-- Loop of `col_idx_to_a1` from `utils.py`, on the already-incremented
numeral: `while n: n, r = divmod(n - 1, 26); s = chr(r + 65) + s`.
Written with an explicit fuel argument (the numeral itself bounds the
iteration count, since `(n - 1) / 26 < n` for positive `n`) so the
recursion is structural. -/
def colLoopAux : Nat → Nat → String → String
  | 0, _, s => s
  | _ + 1, 0, s => s
  | fuel + 1, m + 1, s =>
    colLoopAux fuel (m / 26) (String.singleton (Char.ofNat (m % 26 + 65)) ++ s)

/-- The `while` loop of `col_idx_to_a1`, with enough fuel to run to
completion. -/
def colLoop (n : Nat) (s : String) : String :=
  colLoopAux n n s

/-- Model of `col_idx_to_a1` from `utils.py`: 0-based column index to A1 letters.
The argument is an `Int` because the sources call it with
`len(headers) - 1`, which is `-1` for an empty header row (the Python loop
then runs zero times and returns the empty string). -/
def col_idx_to_a1 (n : Int) : String :=
  if n + 1 ≤ 0 then "" else colLoop (n + 1).toNat ""

/-- Model of `normalize_rows` from `utils.py`: pad short rows with empty strings,
truncate long rows to header length, and pair header names with cells
positionally. -/
def normalize_rows (headers : List String) (raws : List (List PyVal)) : List Row :=
  raws.map (fun r =>
    headers.zip (r.take headers.length ++ List.replicate (headers.length - r.length) (pstr "")))

/-- The row-selection comprehension of `upsert_rows`
(`[i for i, r in enumerate(rows) if predicate(r)]`); a predicate exception
aborts the whole comprehension. -/
def selectGo (p : Row → Option Bool) : Nat → List Row → Option (List Nat)
  | _, [] => some []
  | i, r :: rest =>
    match p r with
    | none => none
    | some true => (selectGo p (i + 1) rest).map (fun l => i :: l)
    | some false => selectGo p (i + 1) rest

/-- Indices of rows matching the predicate, in original order. -/
def selectIndices (p : Row → Option Bool) (rows : List Row) : Option (List Nat) :=
  selectGo p 0 rows

/-- The predicate used by `upsert_rows`:
`build_predicate(where) if where is not None else (lambda r: True)`. -/
def predOf (whereOpt : Option PyVal) : Row → Option Bool :=
  match whereOpt with
  | some w => build_predicate w
  | none => fun _ => some true

/-- The per-row base of the patch loop in `upsert_rows`:
`[existing_dict.get(h, "") for h in headers]`. -/
def baseRow (headers : List String) (row : Row) : List PyVal :=
  headers.map (fun h => (dget row h).getD (pstr ""))

/-- The patch loop of `upsert_rows`: for each `(k, v)` of `data` (in dict
insertion order) with `k` among the headers, overwrite column
`headers.index(k)` and set the needs-update flag when the stringified
current cell differs from the stringified patch value. -/
def applyPatchGo (headers : List String) :
    List (String × PyVal) → List PyVal → Bool → List PyVal × Bool
  | [], row, nu => (row, nu)
  | (k, v) :: rest, row, nu =>
    if k ∈ headers then
      if pyStr (row.getD (headers.indexOf k) (pstr "")) ≠ pyStr v then
        applyPatchGo headers rest (row.set (headers.indexOf k) v) true
      else applyPatchGo headers rest row nu
    else applyPatchGo headers rest row nu

/-- Patched row and needs-update flag for one targeted row. -/
def applyPatch (headers : List String) (base : List PyVal) (data : List (String × PyVal)) :
    List PyVal × Bool :=
  applyPatchGo headers data base false

/-- Whether a targeted row needs a write under the given patch. -/
def needsWrite (headers : List String) (data : List (String × PyVal)) (row : Row) : Bool :=
  (applyPatch headers (baseRow headers row) data).2

/-- The row value written for a targeted row under the given patch. -/
def patchedRow (headers : List String) (data : List (String × PyVal)) (row : Row) :
    List PyVal :=
  (applyPatch headers (baseRow headers row) data).1

/-- The A1 range written for data row `idx` (0-based):
`f"{sheet_name}!A{idx + 2}:{end_col}{idx + 2}"`. -/
def rangeFor (sheetName : String) (headers : List String) (idx : Nat) : String :=
  sheetName ++ "!A" ++ toString (idx + 2) ++ ":" ++
    col_idx_to_a1 ((headers.length : Int) - 1) ++ toString (idx + 2)

/-- One remote write issued by the upsert engine: a single range write
(`values().update`), a batched write (`values().batchUpdate`) or an append
(`values().append`). -/
inductive WriteCall where
  | update (range : String) (row : List PyVal)
  | batchUpdate (data : List (String × List PyVal))
  | append (range : String) (row : List PyVal)

/-- The new-row synthesis of the append branch: empty strings at header
width, then the patch values at their header positions. -/
def newRowOf (headers : List String) (data : List (String × PyVal)) : List PyVal :=
  data.foldl
    (fun row kv =>
      if kv.1 ∈ headers then row.set (headers.indexOf kv.1) kv.2 else row)
    (List.replicate headers.length (pstr ""))

/-- Model of `upsert_rows` from `services.py`.  The fresh read result is modelled as
`none` for an empty/unreadable `values` (the code then raises before
issuing any call), or `some (headers, raws)` for a header row plus data
rows.  The returned trace lists the write calls issued, in order; the
`Except` carries the `(updated, appended)` result or the raised error. -/
def upsert_rows (sheetName : String)
    (values : Option (List String × List (List PyVal)))
    (whereOpt : Option PyVal) (data : List (String × PyVal)) (updateAll : Bool) :
    List WriteCall × Except String (Int × Int) :=
  match values with
  | none => ([], Except.error "Sheet appears empty or unreadable")
  | some (headers, raws) =>
    let rows := normalize_rows headers raws
    match selectIndices (predOf whereOpt) rows with
    | none => ([], Except.error "TypeError")
    | some sel =>
      match sel with
      | [] =>
        let lastRow := 1 + raws.length
        let range := sheetName ++ "!A" ++ toString lastRow ++ ":" ++
          col_idx_to_a1 ((headers.length : Int) - 1) ++ toString lastRow
        ([WriteCall.append range (newRowOf headers data)], Except.ok (0, 1))
      | first :: restSel =>
        let target := if updateAll then first :: restSel else [first]
        match target with
        | [idx] =>
          let pr := applyPatch headers (baseRow headers (rows.getD idx [])) data
          if pr.2 then
            ([WriteCall.update (rangeFor sheetName headers idx) pr.1], Except.ok (1, 0))
          else ([], Except.ok (0, 0))
        | _ =>
          let entries := target.filterMap (fun idx =>
            let pr := applyPatch headers (baseRow headers (rows.getD idx [])) data
            if pr.2 then some (rangeFor sheetName headers idx, pr.1) else none)
          if entries.isEmpty then ([], Except.ok (0, 0))
          else ([WriteCall.batchUpdate entries], Except.ok ((entries.length : Int), 0))

/-- Model of `apply_pagination` from `services.py`, on inputs already known to be
integers or absent (the sources' `int()` conversion and its fallback to the
default are outside the claims).  Returns the page slice plus the metadata
tuple `(total, page, limit, hasNextPage)`. -/
def apply_pagination {α : Type} (rows : List α) (page limit : Option Int) :
    List α × (Nat × Int × Int × Bool) :=
  let p0 := page.getD 1
  let l0 := limit.getD 50
  let p := if p0 < 1 then 1 else p0
  let l := if l0 < 0 then 0 else l0
  let total := rows.length
  let start : Int := if 0 < l then (p - 1) * l else 0
  let stop : Int := if 0 < l then start + l else (total : Int)
  let paginated := (rows.drop start.toNat).take (stop - start).toNat
  (paginated, (total, p, l, decide (stop < (total : Int))))

/-- The result dict returned by `upsert_rows` in `services.py`:
`{"updated": updated, "appended": appended}`. -/
def upsertResultFields (updated appended : Int) : List (String × PyVal) :=
  [("updated", pint updated), ("appended", pint appended)]

/-- The success-path response construction of `views.update_sheet`: the
`JsonResponse` body reads `result["headers"]`, `result["updated"]` and
`result["appended"]`; a missing key raises `KeyError`, which the view's
`except` turns into an error response. -/
def update_sheet_response (sheetName : String) (result : List (String × PyVal)) :
    Except String (List (String × PyVal)) :=
  match dget result "headers" with
  | none => Except.error "KeyError: headers"
  | some hs =>
    match dget result "updated", dget result "appended" with
    | some u, some a =>
      Except.ok [("sheet", pstr sheetName), ("headers", hs), ("updated", u), ("appended", a)]
    | _, _ => Except.error "KeyError"

/-! ### Supporting lemmas -/

/-- The needs-update flag of the patch loop is true exactly when some patch
entry on a header column differs, by string comparison, from the row value
at that column at the time the entry is processed — which, before the first
change, is the original base value.  (Once a change happens the flag is
true forever, so the comparison against the base characterizes the flag.) -/
theorem applyPatchGo_flag (headers : List String) :
    ∀ (data : List (String × PyVal)) (row : List PyVal) (nu : Bool),
      (applyPatchGo headers data row nu).2
        = (nu || data.any (fun kv => decide (kv.1 ∈ headers)
            && decide (pyStr (row.getD (headers.indexOf kv.1) (pstr "")) ≠ pyStr kv.2))) := by
  intro data
  induction data with
  | nil => intro row nu; simp [applyPatchGo]
  | cons kv rest ih =>
    intro row nu
    obtain ⟨k, v⟩ := kv
    simp only [applyPatchGo]
    by_cases hmem : k ∈ headers
    · rw [if_pos hmem]
      by_cases hstr : pyStr (row.getD (headers.indexOf k) (pstr "")) ≠ pyStr v
      · rw [if_pos hstr, ih]
        rw [List.getD_eq_getElem?_getD] at hstr
        simp [hmem, hstr]
      · rw [if_neg hstr, ih]
        have heq := not_not.mp hstr
        rw [List.getD_eq_getElem?_getD] at heq
        simp [heq]
    · rw [if_neg hmem, ih]
      simp [hmem]

/-- A patch whose entries all agree (by string comparison) with the current
row leaves the row and the flag untouched. -/
theorem applyPatchGo_noChange (headers : List String) :
    ∀ (data : List (String × PyVal)) (row : List PyVal) (nu : Bool),
      (∀ kv ∈ data, kv.1 ∈ headers →
        pyStr (row.getD (headers.indexOf kv.1) (pstr "")) = pyStr kv.2) →
      applyPatchGo headers data row nu = (row, nu) := by
  intro data
  induction data with
  | nil => intro row nu _; rfl
  | cons kv rest ih =>
    intro row nu h
    obtain ⟨k, v⟩ := kv
    by_cases hmem : k ∈ headers
    · have heq := h (k, v) (List.mem_cons_self _ _) hmem
      simp only [applyPatchGo, if_pos hmem, heq, ne_eq, not_true_eq_false, if_neg,
        ite_false, not_not]
      exact ih row nu (fun kv hkv => h kv (List.mem_cons_of_mem _ hkv))
    · simp only [applyPatchGo, if_neg hmem]
      exact ih row nu (fun kv hkv => h kv (List.mem_cons_of_mem _ hkv))

/-- Skipping the non-dict entries of an OR list does not change the OR
loop's outcome: the disjunction only consults dict entries. -/
theorem orOkLoop_filter (row : Row) (L : List PyVal) :
    orOkLoop row L = orOkLoop row (L.filter isPdict) := by
  induction L with
  | nil => rfl
  | cons c rest ih =>
    cases c <;> try exact ih
    rename_i fs
    rw [List.filter_cons_of_pos (by rfl)]
    simp only [orOkLoop]
    cases h : matchOne row fs with
    | none => rfl
    | some b => cases b <;> simp [ih]

/-- A nullish value (None or the empty string) never parses as a datetime. -/
theorem nullish_no_datetime : ∀ v : PyVal, isNullish v = true → toDatetime v = none := by
  intro v h
  cases v with
  | pnone => rfl
  | pstr s =>
    simp only [isNullish, decide_eq_true_eq] at h
    subst h
    rfl
  | pint n => simp [isNullish] at h
  | pbool b => simp [isNullish] at h
  | pdt d => simp [isNullish] at h
  | plist xs => simp [isNullish] at h
  | pdict fs => simp [isNullish] at h

/-- A nullish value never parses as a number. -/
theorem nullish_no_number : ∀ v : PyVal, isNullish v = true → toNumber v = none := by
  intro v h
  cases v with
  | pnone => rfl
  | pstr s =>
    simp only [isNullish, decide_eq_true_eq] at h
    subst h
    rfl
  | pint n => simp [isNullish] at h
  | pbool b => simp [isNullish] at h
  | pdt d => simp [isNullish] at h
  | plist xs => simp [isNullish] at h
  | pdict fs => simp [isNullish] at h

/-- A nullish value never parses as a boolean. -/
theorem nullish_no_bool : ∀ v : PyVal, isNullish v = true → toBool v = none := by
  intro v h
  cases v with
  | pnone => rfl
  | pstr s =>
    simp only [isNullish, decide_eq_true_eq] at h
    subst h
    rfl
  | pint n => simp [isNullish] at h
  | pbool b => simp [isNullish] at h
  | pdt d => simp [isNullish] at h
  | plist xs => simp [isNullish] at h
  | pdict fs => simp [isNullish] at h

/-! ### Claims -/

/-- C2 counterexample: a non-dict entry (`0`) in the `or` list changes the
compiled predicate's result relative to the clause with non-dict entries
removed: it keeps the OR list non-empty while contributing no match, so the
predicate is constantly false instead of constantly true; likewise a
non-dict entry in the `and` list forces the AND conjunct false. -/
theorem nondict_entries_not_ignored :
    build_predicate (pdict [("or", plist [pint 0])]) [] = some false
    ∧ build_predicate (pdict [("or", plist [])]) [] = some true
    ∧ build_predicate (pdict [("and", plist [pstr "x"])]) [] = some false
    ∧ build_predicate (pdict [("and", plist [])]) [] = some true :=
  ⟨rfl, rfl, rfl, rfl⟩

/-- C2 (amended): non-dict entries of the `or` list are skipped by the
disjunction, so removing them preserves the predicate as long as the list's
emptiness does not flip (some dict entry remains, or the list was empty);
a non-dict entry of the `and` list is not ignored: it makes the AND
conjunct false (and stops the loop), like a condition no row matches. -/
theorem nondict_entries_behavior :
    (∀ (A : PyVal) (L : List PyVal) (row : Row),
      ((L.filter isPdict).isEmpty = false ∨ L = []) →
      build_predicate (pdict [("and", A), ("or", plist L)]) row
        = build_predicate (pdict [("and", A), ("or", plist (L.filter isPdict))]) row)
    ∧ (∀ (row : Row) (c : PyVal) (rest : List PyVal), isPdict c = false →
        andOkLoop row (c :: rest) = some false
        ∧ orOkLoop row (c :: rest) = orOkLoop row rest) := by
  constructor
  · intro A L row h
    rcases h with hf | rfl
    · have hL : L.isEmpty = false := by
        cases L with
        | nil => simp at hf
        | cons x xs => rfl
      have e1 : getConds [("and", A), ("or", plist L)] "or" = L := by
        show (if !pyTruthy (plist L) then [] else L) = L
        rw [show pyTruthy (plist L) = !L.isEmpty from rfl, hL]
        rfl
      have e2 : getConds [("and", A), ("or", plist (L.filter isPdict))] "or"
          = L.filter isPdict := by
        show (if !pyTruthy (plist (L.filter isPdict)) then [] else L.filter isPdict)
          = L.filter isPdict
        rw [show pyTruthy (plist (L.filter isPdict)) = !(L.filter isPdict).isEmpty from rfl, hf]
        rfl
      show runPredicate (getConds [("and", A), ("or", plist L)] "and")
            (getConds [("and", A), ("or", plist L)] "or") row
          = runPredicate (getConds [("and", A), ("or", plist (L.filter isPdict))] "and")
            (getConds [("and", A), ("or", plist (L.filter isPdict))] "or") row
      rw [e1, e2]
      have hac : getConds [("and", A), ("or", plist L)] "and"
          = getConds [("and", A), ("or", plist (L.filter isPdict))] "and" := rfl
      rw [← hac]
      simp only [runPredicate, hL, hf, orOkLoop_filter row L]
    · rfl
  · intro row c rest h
    constructor
    · cases c <;> first | rfl | simp [isPdict] at h
    · cases c <;> first | rfl | simp [isPdict] at h

/-- C2 witness: removing the non-dict entry `0` from an `or` list that also
holds a dict entry preserves the compiled predicate's result. -/
theorem nondict_entries_behavior_witness :
    build_predicate (pdict [("and", pnone), ("or", plist [pint 0, pdict []])]) []
      = build_predicate (pdict [("and", pnone), ("or", plist [pdict []])]) [] :=
  nondict_entries_behavior.1 pnone [pint 0, pdict []] [] (Or.inl rfl)

/-- C4: `coerce_pair` follows the strict priority order null-check, then
datetime, then number, then bool, then string: both sides nullish gives
kind null; both sides parsing as datetimes gives kind datetime; both sides
parsing as numbers (when not both datetimes) gives kind number; both sides
parsing as booleans (when not both datetimes and not both numbers) gives
kind bool; and numeric values (ints, including Python booleans) are never
accepted as timestamp candidates. -/
theorem coerce_pair_priority (l r : PyVal) :
    ((isNullish l && isNullish r) = true → (coerce_pair l r).2.2 = Kind.knull)
    ∧ (∀ dl dr : DT, toDatetime l = some dl → toDatetime r = some dr →
        (coerce_pair l r).2.2 = Kind.kdatetime)
    ∧ (∀ nl nr : Rat, (toDatetime l = none ∨ toDatetime r = none) →
        toNumber l = some nl → toNumber r = some nr →
        (coerce_pair l r).2.2 = Kind.knumber)
    ∧ (∀ bl br : Bool, (toDatetime l = none ∨ toDatetime r = none) →
        (toNumber l = none ∨ toNumber r = none) →
        toBool l = some bl → toBool r = some br →
        (coerce_pair l r).2.2 = Kind.kbool)
    ∧ (∀ n : Int, toDatetime (pint n) = none)
    ∧ (∀ b : Bool, toDatetime (pbool b) = none) := by
  refine ⟨?_, ?_, ?_, ?_, fun n => rfl, fun b => rfl⟩
  · intro h
    simp [coerce_pair, h]
  · intro dl dr hdl hdr
    have hnn : (isNullish l && isNullish r) = false := by
      cases hb : isNullish l && isNullish r
      · rfl
      · exfalso
        simp only [Bool.and_eq_true] at hb
        rw [nullish_no_datetime l hb.1] at hdl
        exact Option.noConfusion hdl
    simp [coerce_pair, hnn, hdl, hdr]
  · intro nl nr hdt hnl hnr
    have hnn : ¬((isNullish l && isNullish r) = true) := by
      intro hb
      simp only [Bool.and_eq_true] at hb
      rw [nullish_no_number l hb.1] at hnl
      exact Option.noConfusion hnl
    unfold coerce_pair
    rw [if_neg hnn]
    rcases hdt with h | h <;>
      cases hdl2 : toDatetime l <;> cases hdr2 : toDatetime r <;>
      simp_all
  · intro bl br hdt hnum hbl hbr
    have hnn : ¬((isNullish l && isNullish r) = true) := by
      intro hb
      simp only [Bool.and_eq_true] at hb
      rw [nullish_no_bool l hb.1] at hbl
      exact Option.noConfusion hbl
    unfold coerce_pair
    rw [if_neg hnn]
    rcases hdt with h | h <;> rcases hnum with h2 | h2 <;>
      cases hdl2 : toDatetime l <;> cases hdr2 : toDatetime r <;>
      cases hnl2 : toNumber l <;> cases hnr2 : toNumber r <;>
      simp_all

/-- C4 witness: two differently formatted date strings coerce with kind
datetime. -/
theorem coerce_pair_priority_witness :
    (coerce_pair (pstr "2024-01-01") (pstr "2024/01/02")).2.2 = Kind.kdatetime :=
  (coerce_pair_priority (pstr "2024-01-01") (pstr "2024/01/02")).2.1
    ⟨2024, 1, 1, 0, 0, 0⟩ ⟨2024, 1, 2, 0, 0, 0⟩ rfl rfl

/-- C6: `between(cell, low, high)` is true iff the two coercions
`(cell, low)` and `(cell, high)` agree in kind and the inclusive bound
comparisons both hold; kind disagreement always yields false; and
`between("2024-01-01", 5, 10)` is false (both pairs degrade to string
kind, and `"2024-01-01" >= "5"` fails lexicographically). -/
theorem between_same_kind_inclusive (cell low high : PyVal) :
    (pyBetween cell low high = some true ↔
      ((coerce_pair cell low).2.2 = (coerce_pair cell high).2.2
        ∧ cGe (coerce_pair cell low).1 (coerce_pair cell low).2.1 = some true
        ∧ cLe (coerce_pair cell high).1 (coerce_pair cell high).2.1 = some true))
    ∧ ((coerce_pair cell low).2.2 ≠ (coerce_pair cell high).2.2 →
        pyBetween cell low high = some false)
    ∧ pyBetween (pstr "2024-01-01") (pint 5) (pint 10) = some false := by
  refine ⟨?_, ?_, by rfl⟩
  · by_cases hk : (coerce_pair cell low).2.2 = (coerce_pair cell high).2.2
    · simp only [pyBetween, hk, ne_eq, not_true_eq_false, if_false]
      cases hge : cGe (coerce_pair cell low).1 (coerce_pair cell low).2.1 with
      | none => simp [hk, hge]
      | some b => cases b <;> simp [hk, hge]
    · simp [pyBetween, hk]
  · intro h
    simp [pyBetween, h]

/-- C6 witness: a numeric cell within numeric bounds is between them. -/
theorem between_same_kind_inclusive_witness :
    pyBetween (pint 7) (pint 5) (pint 10) = some true :=
  (between_same_kind_inclusive (pint 7) (pint 5) (pint 10)).1.mpr
    ⟨rfl, rfl, rfl⟩

/-- C5: predicate compilation combines the lists as specified: both lists
non-empty gives `(A ∧ B) ∨ C`; only the AND list gives `A ∧ B`; only the OR
list gives `C`; an object with neither list (and no `where` key), or a
non-dict where clause, compiles to the always-true predicate. -/
theorem predicate_combination
    (row : Row) (A B C : List (String × PyVal)) (a b c : Bool)
    (hA : matchOne row A = some a) (hB : matchOne row B = some b)
    (hC : matchOne row C = some c) :
    build_predicate (pdict [("and", plist [pdict A, pdict B]), ("or", plist [pdict C])]) row
      = some ((a && b) || c)
    ∧ build_predicate (pdict [("and", plist [pdict A, pdict B])]) row = some (a && b)
    ∧ build_predicate (pdict [("or", plist [pdict C])]) row = some c
    ∧ (∀ fs : List (String × PyVal), dget fs "where" = none → dget fs "and" = none →
        dget fs "or" = none → build_predicate (pdict fs) row = some true)
    ∧ (∀ w : PyVal, isPdict w = false → build_predicate w row = some true) := by
  refine ⟨?_, ?_, ?_, ?_, ?_⟩
  · show runPredicate [pdict A, pdict B] [pdict C] row = some ((a && b) || c)
    cases a <;> cases b <;> cases c <;>
      simp [runPredicate, andOkLoop, orOkLoop, hA, hB, hC]
  · show runPredicate [pdict A, pdict B] [] row = some (a && b)
    cases a <;> cases b <;>
      simp [runPredicate, andOkLoop, hA, hB]
  · show runPredicate [] [pdict C] row = some c
    cases c <;> simp [runPredicate, orOkLoop, hC]
  · intro fs h1 h2 h3
    simp only [build_predicate, h1, getConds, h2, h3]
    rfl
  · intro w h
    cases w <;> first | rfl | simp [isPdict] at h

/-- C5 witness: `(A ∧ B) ∨ C` at a row matching `A` and `B` but not `C`. -/
theorem predicate_combination_witness :
    build_predicate (pdict [("and", plist [pdict [("field", pstr "x"), ("value", pint 1)],
        pdict [("field", pstr "x"), ("operator", pstr "lte"), ("value", pint 5)]]),
      ("or", plist [pdict [("field", pstr "y"), ("value", pstr "z")]])])
      [("x", pint 1), ("y", pstr "q")] = some true :=
  (predicate_combination [("x", pint 1), ("y", pstr "q")]
    [("field", pstr "x"), ("value", pint 1)]
    [("field", pstr "x"), ("operator", pstr "lte"), ("value", pint 5)]
    [("field", pstr "y"), ("value", pstr "z")] true true false
    rfl rfl rfl).1

/-- C9: an upsert whose fresh read yields no values raises the
"Sheet appears empty or unreadable" error, returns no result, and issues no
write or append call before the error. -/
theorem upsert_empty_read_aborts (sheetName : String) (whereOpt : Option PyVal)
    (data : List (String × PyVal)) (updateAll : Bool) :
    upsert_rows sheetName none whereOpt data updateAll
      = ([], Except.error "Sheet appears empty or unreadable") := rfl

/-- C1: on a successful upsert (here `updated = 1, appended = 0`), the
response construction of `views.update_sheet` reads `result["headers"]`,
which `upsert_rows` never returns, so the view raises `KeyError` and
answers with an error response instead of the documented
`{updated, appended}` success body. -/
theorem update_sheet_success_hits_keyerror :
    update_sheet_response "Sheet1" (upsertResultFields 1 0)
      = Except.error "KeyError: headers" := rfl

/-- C10: change detection in the upsert patch loop is by string equality:
a header column is overwritten (and the row counts as needing a write) iff
`str(existing cell) != str(patch value)`; in particular a numeric cell `10`
patched with the string `"10"` causes no write even though the two values
differ in type. -/
theorem patch_change_detection_by_str (headers : List String) (base : List PyVal)
    (data : List (String × PyVal)) (k : String) (v : PyVal) :
    (applyPatch headers base [(k, v)]
      = if k ∈ headers then
          (if pyStr (base.getD (headers.indexOf k) (pstr "")) ≠ pyStr v then
            (base.set (headers.indexOf k) v, true)
          else (base, false))
        else (base, false))
    ∧ ((applyPatch headers base data).2 = true ↔
        ∃ kv ∈ data, kv.1 ∈ headers ∧
          pyStr (base.getD (headers.indexOf kv.1) (pstr "")) ≠ pyStr kv.2)
    ∧ needsWrite ["n"] [("n", pstr "10")] [("n", pint 10)] = false
    ∧ pint 10 ≠ pstr "10" := by
  refine ⟨?_, ?_, by rfl, fun h => PyVal.noConfusion h⟩
  · by_cases hmem : k ∈ headers
    · by_cases hstr : pyStr (base.getD (headers.indexOf k) (pstr "")) ≠ pyStr v
      · simp [applyPatch, applyPatchGo, hmem, hstr]
      · simp [applyPatch, applyPatchGo, hmem, hstr]
    · simp [applyPatch, applyPatchGo, hmem]
  · rw [applyPatch, applyPatchGo_flag]
    simp [List.any_eq_true]

/-- C7: pagination returns the slice `[(p-1)*l, (p-1)*l + l)` of the input
(the whole input when the clamped limit is 0), with `total` the input
length and `hasNextPage` true iff the slice's end offset is strictly less
than `total`; in particular for 23 rows and limit 10, page 1 yields 10 rows
with a next page, page 3 yields 3 rows with none, and limit 0 yields all 23
rows with none. -/
theorem apply_pagination_spec {α : Type} (rows : List α) (page limit : Option Int) :
    ((apply_pagination rows page limit).1
      = (if 0 < (if limit.getD 50 < 0 then 0 else limit.getD 50) then
          (rows.drop ((((if page.getD 1 < 1 then 1 else page.getD 1) - 1)
              * (if limit.getD 50 < 0 then 0 else limit.getD 50)).toNat)).take
            (if limit.getD 50 < 0 then 0 else limit.getD 50).toNat
        else rows))
    ∧ (apply_pagination rows page limit).2.1 = rows.length
    ∧ ((apply_pagination rows page limit).2.2.2.2 = true ↔
        (if 0 < (if limit.getD 50 < 0 then 0 else limit.getD 50) then
          ((if page.getD 1 < 1 then 1 else page.getD 1) - 1)
              * (if limit.getD 50 < 0 then 0 else limit.getD 50)
            + (if limit.getD 50 < 0 then 0 else limit.getD 50)
        else (rows.length : Int)) < (rows.length : Int))
    ∧ (apply_pagination (List.range 23) (some 1) (some 10)).1.length = 10
    ∧ (apply_pagination (List.range 23) (some 1) (some 10)).2.2.2.2 = true
    ∧ (apply_pagination (List.range 23) (some 3) (some 10)).1.length = 3
    ∧ (apply_pagination (List.range 23) (some 3) (some 10)).2.2.2.2 = false
    ∧ (apply_pagination (List.range 23) none (some 0)).1 = List.range 23
    ∧ (apply_pagination (List.range 23) none (some 0)).2.2.2.2 = false := by
  refine ⟨?_, ?_, ?_, by decide, by decide, by decide, by decide, by decide, by decide⟩
  · set l := (if limit.getD 50 < 0 then 0 else limit.getD 50) with hl
    set p := (if page.getD 1 < 1 then 1 else page.getD 1) with hp
    by_cases h0 : 0 < l
    · simp only [apply_pagination, ← hl, ← hp, if_pos h0]
      have : (p - 1) * l + l - (p - 1) * l = l := by ring
      rw [this]
    · simp only [apply_pagination, ← hl, ← hp, if_neg h0]
      have : ((rows.length : Int) - 0).toNat = rows.length := by omega
      simp [this]
  · rfl
  · set l := (if limit.getD 50 < 0 then 0 else limit.getD 50) with hl
    set p := (if page.getD 1 < 1 then 1 else page.getD 1) with hp
    by_cases h0 : 0 < l
    · simp only [apply_pagination, ← hl, ← hp, if_pos h0]
      exact decide_eq_true_iff
    · simp only [apply_pagination, ← hl, ← hp, if_neg h0]
      exact decide_eq_true_iff

/-- The filterMap of the batch branch lists exactly the rows needing a
write, as ranges paired with patched rows. -/
theorem batch_entries_eq (headers : List String) (data : List (String × PyVal))
    (rows : List Row) (sheetName : String) :
    ∀ target : List Nat,
      target.filterMap (fun idx =>
        let pr := applyPatch headers (baseRow headers (rows.getD idx [])) data
        if pr.2 then some (rangeFor sheetName headers idx, pr.1) else none)
      = (target.filter (fun j => needsWrite headers data (rows.getD j []))).map
          (fun j => (rangeFor sheetName headers j,
            patchedRow headers data (rows.getD j []))) := by
  intro target
  induction target with
  | nil => rfl
  | cons x xs ih =>
    simp only [List.filterMap_cons, List.filter_cons]
    by_cases h : (applyPatch headers (baseRow headers (rows.getD x [])) data).2 = true
    · rw [if_pos h, if_pos (show needsWrite headers data (rows.getD x []) = true from h),
        List.map_cons, ← ih]
      rfl
    · rw [if_neg h, if_neg (show ¬(needsWrite headers data (rows.getD x []) = true) from h),
        ih]

/-- C8: an upsert whose filter matches exactly one row, and whose patch
values stringify identically to the row's existing values on every patched
header column, issues no write call and reports `updated = 0`,
`appended = 0`. -/
theorem upsert_identical_patch_no_write
    (sheetName : String) (headers : List String) (raws : List (List PyVal))
    (whereOpt : Option PyVal) (data : List (String × PyVal)) (updateAll : Bool) (i : Nat)
    (hsel : selectIndices (predOf whereOpt) (normalize_rows headers raws) = some [i])
    (heq : ∀ kv ∈ data, kv.1 ∈ headers →
      pyStr ((baseRow headers ((normalize_rows headers raws).getD i [])).getD
        (headers.indexOf kv.1) (pstr "")) = pyStr kv.2) :
    upsert_rows sheetName (some (headers, raws)) whereOpt data updateAll
      = ([], Except.ok (0, 0)) := by
  have happ : applyPatch headers (baseRow headers ((normalize_rows headers raws).getD i []))
      data = (baseRow headers ((normalize_rows headers raws).getD i []), false) :=
    applyPatchGo_noChange headers data _ false heq
  simp only [upsert_rows, hsel]
  simp only [List.getD_eq_getElem?_getD] at happ
  cases updateAll <;> simp [happ]

/-- C8 witness: one matching row, patch equal to the current value. -/
theorem upsert_identical_patch_no_write_witness :
    upsert_rows "S" (some (["a"], [[pstr "x"]])) none [("a", pstr "x")] false
      = ([], Except.ok (0, 0)) :=
  upsert_identical_patch_no_write "S" ["a"] [[pstr "x"]] none [("a", pstr "x")] false 0
    rfl
    (by
      intro kv hkv hmem
      rw [List.mem_singleton] at hkv
      subst hkv
      rfl)

/-- C3 counterexample: with two targeted rows of which exactly one needs
writing, the engine issues one *batched* write (with a single range), not
the single range write the claim requires for "exactly one row needs
writing"; the branch is decided by the number of targeted rows. -/
theorem upsert_single_change_batched :
    upsert_rows "S" (some (["id", "v"], [[pstr "1", pstr "b"], [pstr "2", pstr "a"]]))
        none [("v", pstr "b")] true
      = ([WriteCall.batchUpdate [("S!A3:B3", [pstr "2", pstr "b"])]], Except.ok (1, 0))
    ∧ ((upsert_rows "S" (some (["id", "v"], [[pstr "1", pstr "b"], [pstr "2", pstr "a"]]))
        none [("v", pstr "b")] true).1.all (fun c =>
          match c with
          | WriteCall.update _ _ => false
          | _ => true) = true)
    ∧ ([0, 1].filter (fun j => needsWrite ["id", "v"] [("v", pstr "b")]
        ((normalize_rows ["id", "v"] [[pstr "1", pstr "b"], [pstr "2", pstr "a"]]).getD j [])))
      = [1] :=
  ⟨rfl, rfl, rfl⟩

/-- C3 (amended): the choice between a single range write and a batched
write is made on the number of *targeted* rows, not the number needing
writes: a single targeted row gets a single range write iff it needs one
(else no call); with two or more targeted rows, the rows needing writes —
all and only those — are covered by exactly one batched write call (even
when only one row needs writing), and no call is issued when none does. -/
theorem upsert_write_granularity
    (sheetName : String) (headers : List String) (raws : List (List PyVal))
    (whereOpt : Option PyVal) (data : List (String × PyVal)) (updateAll : Bool)
    (i : Nat) (rest : List Nat)
    (hsel : selectIndices (predOf whereOpt) (normalize_rows headers raws)
      = some (i :: rest)) :
    (∀ j, (if updateAll then i :: rest else [i]) = [j] →
      (needsWrite headers data ((normalize_rows headers raws).getD j []) = true →
        upsert_rows sheetName (some (headers, raws)) whereOpt data updateAll
          = ([WriteCall.update (rangeFor sheetName headers j)
              (patchedRow headers data ((normalize_rows headers raws).getD j []))],
            Except.ok (1, 0)))
      ∧ (needsWrite headers data ((normalize_rows headers raws).getD j []) = false →
        upsert_rows sheetName (some (headers, raws)) whereOpt data updateAll
          = ([], Except.ok (0, 0))))
    ∧ (2 ≤ (if updateAll then i :: rest else [i]).length →
      (((i :: rest).filter (fun j => needsWrite headers data
          ((normalize_rows headers raws).getD j []))) = [] →
        upsert_rows sheetName (some (headers, raws)) whereOpt data updateAll
          = ([], Except.ok (0, 0)))
      ∧ (∀ j js, ((i :: rest).filter (fun j => needsWrite headers data
          ((normalize_rows headers raws).getD j []))) = j :: js →
        upsert_rows sheetName (some (headers, raws)) whereOpt data updateAll
          = ([WriteCall.batchUpdate ((j :: js).map (fun j =>
              (rangeFor sheetName headers j,
               patchedRow headers data ((normalize_rows headers raws).getD j []))))],
            Except.ok (((j :: js).length : Int), 0)))) := by
  constructor
  · intro j htj
    cases updateAll with
    | false =>
      simp only [if_neg Bool.false_ne_true] at htj
      have hij : i = j := by
        injection htj
      subst hij
      constructor
      · intro hneed
        simp only [upsert_rows, hsel]
        simp only [needsWrite, List.getD_eq_getElem?_getD] at hneed
        simp [hneed, patchedRow]
      · intro hneed
        simp only [upsert_rows, hsel]
        simp only [needsWrite, List.getD_eq_getElem?_getD] at hneed
        simp [hneed]
    | true =>
      simp only [if_pos rfl] at htj
      injection htj with h1 h2
      subst h1
      subst h2
      constructor
      · intro hneed
        simp only [upsert_rows, hsel]
        simp only [needsWrite, List.getD_eq_getElem?_getD] at hneed
        simp [hneed, patchedRow]
      · intro hneed
        simp only [upsert_rows, hsel]
        simp only [needsWrite, List.getD_eq_getElem?_getD] at hneed
        simp [hneed]
  · intro h2
    cases updateAll with
    | false => simp at h2
    | true =>
      cases rest with
      | nil => simp at h2
      | cons r rs =>
        constructor
        · intro hempty
          simp only [upsert_rows, hsel, if_true]
          rw [batch_entries_eq headers data (normalize_rows headers raws) sheetName, hempty]
          rfl
        · intro j js hcons
          simp only [upsert_rows, hsel, if_true]
          rw [batch_entries_eq headers data (normalize_rows headers raws) sheetName, hcons]
          simp

/-- C3 witness (amended claim): three targeted rows, two needing writes,
yield one batched write over exactly those two ranges and `updated = 2`. -/
theorem upsert_write_granularity_witness :
    upsert_rows "S" (some (["id", "s"],
        [[pstr "1", pstr "a"], [pstr "2", pstr "b"], [pstr "3", pstr "a"]]))
        none [("s", pstr "b")] true
      = ([WriteCall.batchUpdate
            [("S!A2:B2", [pstr "1", pstr "b"]), ("S!A4:B4", [pstr "3", pstr "b"])]],
          Except.ok (2, 0)) :=
  ((upsert_write_granularity "S" ["id", "s"]
      [[pstr "1", pstr "a"], [pstr "2", pstr "b"], [pstr "3", pstr "a"]]
      none [("s", pstr "b")] true 0 [1, 2] rfl).2 (by decide)).2 0 [2] rfl

end Sheets
